import Mathlib

/-!
Shallow embedding of the `portfolio` repository's two UI controller classes:
`RotationController` (src/js/rotation-controller.js) and `LayerManager`
(src/unnamed/part_000).  Machine numbers (JS doubles used only for bounded
clamping/interpolation arithmetic) are modelled as rationals; DOM event
dispatch is modelled as an explicit list of emitted events; the JS listener
registry is modelled as a list of (target, event, function-reference) triples
where `.bind(this)` and inline arrows allocate fresh function objects.
-/

namespace Portfolio

/-- `Math.max lo (Math.min hi x)` as used throughout the source for clamping. -/
def clampQ (lo hi x : ℚ) : ℚ := max lo (min hi x)

/-- CONFIG.MAX_ROTATION_X (rotation-controller.js line 8). -/
def MAX_ROTATION_X : ℚ := 90

/-- CONFIG.TRANSITION_DURATION in ms (rotation-controller.js line 12). -/
def TRANSITION_DURATION : ℚ := 300

/-- `this.minScale = 0.2` (rotation-controller.js line 35). -/
def minScale : ℚ := 1/5

/-- `this.maxScale = 2` (rotation-controller.js line 36). -/
def maxScale : ℚ := 2

/-- `this.dampening = 0.95` (rotation-controller.js line 53). -/
def dampening : ℚ := 19/20

/-- The numeric state owned by a `RotationController` instance that the
claims are about: rotation angles, momentum velocity, scale, drag flag. -/
structure RCState where
  rotateX : ℚ
  rotateY : ℚ
  velX : ℚ
  velY : ℚ
  scale : ℚ
  isDragging : Bool
deriving Repr, DecidableEq

/-- Constructor state (rotation-controller.js lines 29-40). -/
def rcInit : RCState :=
  { rotateX := 0, rotateY := 0, velX := 0, velY := 0, scale := 1, isDragging := false }

/-- Observable effects dispatched by `RotationController`:
`applyTransform` stands for the wrapper-style write (which also dispatches a
`rotationUpdate` custom event), `zoomUpdate` for the zoom custom event. -/
inductive RCEvent
  | applyTransform
  | zoomUpdate
deriving Repr, DecidableEq

/-- `updateRotation(deltaX, deltaY, sensitivity)` (rotation-controller.js
lines 226-241): add scaled deltas, clamp X, store momentum velocity. -/
def updateRotation (deltaX deltaY sensitivity : ℚ) (s : RCState) : RCState :=
  { s with
    rotateY := s.rotateY + deltaX * sensitivity
    rotateX := clampQ (-MAX_ROTATION_X) MAX_ROTATION_X (s.rotateX - deltaY * sensitivity)
    velX := deltaY * sensitivity * (1/10)
    velY := deltaX * sensitivity * (1/10) }

/-- An in-flight `animateToRotation` closure: the start angles it captured at
call time and the target angles it was given (rotation-controller.js lines
253-257). -/
structure RotAnim where
  startX : ℚ
  startY : ℚ
  targetX : ℚ
  targetY : ℚ
deriving Repr, DecidableEq

/-- `animateToRotation(targetX, targetY)` captures the current angles as the
animation start; the target is stored exactly as given — the source applies
no clamp here (rotation-controller.js lines 253-257). -/
def animateToRotation (targetX targetY : ℚ) (s : RCState) : RotAnim :=
  { startX := s.rotateX, startY := s.rotateY, targetX := targetX, targetY := targetY }

/-- The cubic ease-out `1 - Math.pow(1 - progress, 3)` (lines 264, 312). -/
def easeOutCubic (p : ℚ) : ℚ := 1 - (1 - p)^3

/-- One frame of an `animateToRotation` animation at `elapsed` ms after its
start (rotation-controller.js lines 259-269): progress is capped at 1 and the
angles are interpolated with the cubic ease-out; no clamp is applied. -/
def rotAnimFrame (a : RotAnim) (elapsed : ℚ) (s : RCState) : RCState :=
  let progress := min (elapsed / TRANSITION_DURATION) 1
  let easeProgress := easeOutCubic progress
  { s with
    rotateX := a.startX + (a.targetX - a.startX) * easeProgress
    rotateY := a.startY + (a.targetY - a.startY) * easeProgress }

/-- `rotateWithAnimation(deltaY, deltaX)` (rotation-controller.js lines
244-250): the keyboard path clamps the X target before animating. -/
def rotateWithAnimation (deltaY deltaX : ℚ) (s : RCState) : RotAnim :=
  animateToRotation
    (clampQ (-MAX_ROTATION_X) MAX_ROTATION_X (s.rotateX + deltaX))
    (s.rotateY + deltaY) s

/-- `setRotation(x, y, animate)` with `animate = false` (rotation-controller.js
lines 396-400): clamp X, set Y, apply transform. -/
def setRotationImmediate (x y : ℚ) (s : RCState) : RCState :=
  { s with
    rotateX := clampQ (-MAX_ROTATION_X) MAX_ROTATION_X x
    rotateY := y }

/-- `setRotation(x, y, animate)` with `animate = true` (rotation-controller.js
lines 393-395): hands `x` and `y` to `animateToRotation` UNclamped. -/
def setRotationAnimate (x y : ℚ) (s : RCState) : RotAnim :=
  animateToRotation x y s

/-- `updateZoom(delta)` (rotation-controller.js lines 280-296): clamp the new
scale; only if it differs from the current scale, store it, apply the
transform and dispatch `zoomUpdate`; otherwise do nothing at all. -/
def updateZoom (delta : ℚ) (s : RCState) : RCState × List RCEvent :=
  let newScale := clampQ minScale maxScale (s.scale + delta)
  if newScale ≠ s.scale then
    ({ s with scale := newScale }, [RCEvent.applyTransform, RCEvent.zoomUpdate])
  else
    (s, [])

/-- One frame of the momentum loop body (rotation-controller.js lines
360-375): when not dragging and some velocity component exceeds 0.1 in
magnitude, add the velocity to the angles, clamp X, and damp both velocity
components by 0.95; otherwise the frame changes nothing. -/
def momentumFrame (s : RCState) : RCState :=
  if s.isDragging = false ∧ (1/10 < |s.velX| ∨ 1/10 < |s.velY|) then
    { s with
      rotateX := clampQ (-MAX_ROTATION_X) MAX_ROTATION_X (s.rotateX + s.velX)
      rotateY := s.rotateY + s.velY
      velX := s.velX * dampening
      velY := s.velY * dampening }
  else s

/-- The scale subsystem together with the pool of outstanding
`animateToScale` closures: the source never cancels a superseded scale
animation, so each call adds a closure that captured `(startScale,
targetScale)` at call time (rotation-controller.js lines 302-305) and keeps
producing frames. -/
structure ZoomSys where
  rc : RCState
  anims : List (ℚ × ℚ)
deriving Repr, DecidableEq

/-- `animateToScale(targetScale)` (rotation-controller.js lines 302-305):
captures the current scale as the start and registers the frame closure. -/
def animateToScale (targetScale : ℚ) (z : ZoomSys) : ZoomSys :=
  { z with anims := (z.rc.scale, targetScale) :: z.anims }

/-- `setScale(scale, animate)` (rotation-controller.js lines 410-418): clamp
first; then either start an animation toward the clamped value or set it
immediately and apply the transform. -/
def setScale (scale : ℚ) (animate : Bool) (z : ZoomSys) : ZoomSys × List RCEvent :=
  let clampedScale := clampQ minScale maxScale scale
  if animate then
    (animateToScale clampedScale z, [])
  else
    ({ z with rc := { z.rc with scale := clampedScale } }, [RCEvent.applyTransform])

/-- `resetZoom()` (rotation-controller.js lines 298-300). -/
def resetZoom (z : ZoomSys) : ZoomSys :=
  animateToScale 1 z

/-- One frame of the `i`-th outstanding scale animation at `elapsed` ms after
its start (rotation-controller.js lines 307-315): progress capped at 1,
cubic ease-out interpolation from the captured start to the target. -/
def scaleAnimFrame (i : ℕ) (elapsed : ℚ) (z : ZoomSys) : ZoomSys × List RCEvent :=
  match z.anims.get? i with
  | none => (z, [])
  | some (startScale, targetScale) =>
    let progress := min (elapsed / TRANSITION_DURATION) 1
    let easeProgress := easeOutCubic progress
    ({ z with rc := { z.rc with
        scale := startScale + (targetScale - startScale) * easeProgress } },
     [RCEvent.applyTransform])

/-- The zoom-affecting operations of claim C5: a wheel/pinch delta fed to
`updateZoom`, a `setScale` call with arbitrary argument (animated or not),
`resetZoom`, and a frame of any outstanding scale animation. -/
inductive ZoomOp
  | zoomDelta (d : ℚ)
  | setScaleOp (x : ℚ) (animate : Bool)
  | resetZoomOp
  | frame (i : ℕ) (elapsed : ℚ)
deriving Repr

/-- Apply one zoom operation to the system. -/
def zoomStep (z : ZoomSys) (op : ZoomOp) : ZoomSys :=
  match op with
  | .zoomDelta d => { z with rc := (updateZoom d z.rc).1 }
  | .setScaleOp x animate => (setScale x animate z).1
  | .resetZoomOp => resetZoom z
  | .frame i elapsed => (scaleAnimFrame i elapsed z).1

/-- Run a sequence of zoom operations from a starting system state. -/
def zoomRun (ops : List ZoomOp) (z : ZoomSys) : ZoomSys :=
  ops.foldl zoomStep z

/-- A frame operation is fed a nonnegative elapsed time
(`performance.now()` is monotone, so `elapsed = currentTime - startTime ≥ 0`);
the other operations take arbitrary arguments. -/
def zoomOpValid : ZoomOp → Prop
  | .frame _ elapsed => 0 ≤ elapsed
  | _ => True

instance : DecidablePred zoomOpValid := by
  intro op; cases op <;> simp [zoomOpValid] <;> infer_instance

/-- Initial zoom system: constructor scale 1, no outstanding animations. -/
def zoomInit : ZoomSys := { rc := rcInit, anims := [] }

/-! ## LayerManager (src/unnamed/part_000)

`this.activeLayer` / `this.focusedLayer` are `null` or a layer number, so
they are modelled as `Option ℕ`.  JS comparison and arithmetic operators
coerce `null` to `0`, which `jsNum` makes explicit; JS `||` treats both
`null` and `0` as falsy, which `jsOr` makes explicit. -/

/-- JS numeric coercion of a possibly-null layer index: `null` behaves as
`0` under `<`, `>`, `+`, `-`. -/
def jsNum : Option ℕ → ℕ
  | none => 0
  | some n => n

/-- JS `a || d` for a possibly-null number `a`: falls through on `null` and
on `0` (both falsy). -/
def jsOr (a : Option ℕ) (d : ℕ) : ℕ :=
  match a with
  | none => d
  | some n => if n = 0 then d else n

/-- Custom events dispatched on the container by `LayerManager` (plus the
focus/blur DOM events its handlers react to). -/
inductive LMEvent
  | layerActivated (i : ℕ)
  | layerFocus (i : ℕ)
  | layerBlur (i : ℕ)
  | layerDetailsShown (i : ℕ)
  | layerDetailsHidden
deriving Repr, DecidableEq

/-- The `LayerManager` state the claims are about.  `overlayCount` is the
number of `.layer-detail-overlay` nodes in the document, `overlayFading`
records that the overlay has been put into its fade-out transition (removal
is scheduled), and `broughtFront` records which layer `bringToFront` moved
out of its rest transform. -/
structure LMState where
  activeLayer : Option ℕ
  focusedLayer : Option ℕ
  isAnimating : Bool
  overlayCount : ℕ
  overlayFading : Bool
  broughtFront : Option ℕ
deriving Repr, DecidableEq

/-- State right after the constructor ran `setActiveLayer(3)`
(src/unnamed/part_000 lines 13-39). -/
def lmInit : LMState :=
  { activeLayer := some 3, focusedLayer := none, isAnimating := false,
    overlayCount := 0, overlayFading := false, broughtFront := none }

/-- `setActiveLayer(layerIndex)` (src/unnamed/part_000 lines 209-230):
early-return if the index is already active, otherwise move the `active`
class to the new layer/indicator pair and dispatch `layerActivated`. -/
def setActiveLayer (layerIndex : ℕ) (s : LMState) : LMState × List LMEvent :=
  if s.activeLayer = some layerIndex then (s, [])
  else
    ({ s with activeLayer := some layerIndex }, [LMEvent.layerActivated layerIndex])

/-- `handleLayerFocus` (src/unnamed/part_000 lines 137-145): record the
focused layer, highlight it, dispatch `layerFocus`. -/
def handleLayerFocus (layerIndex : ℕ) (s : LMState) : LMState × List LMEvent :=
  ({ s with focusedLayer := some layerIndex }, [LMEvent.layerFocus layerIndex])

/-- `handleLayerBlur` (src/unnamed/part_000 lines 147-159): clear the
focused layer if it is the one blurring, dispatch `layerBlur` always. -/
def handleLayerBlur (layerIndex : ℕ) (s : LMState) : LMState × List LMEvent :=
  if s.focusedLayer = some layerIndex then
    ({ s with focusedLayer := none }, [LMEvent.layerBlur layerIndex])
  else
    (s, [LMEvent.layerBlur layerIndex])

/-- `focusOnLayer(layerIndex)` (src/unnamed/part_000 lines 268-273):
`getLayer` is null-checked, so nothing happens outside 1..5; otherwise
`layer.focus()` fires the DOM blur handler for the previously focused layer
(when a different one was focused) and then the focus handler for the new
one. -/
def focusOnLayer (layerIndex : ℕ) (s : LMState) : LMState × List LMEvent :=
  if 1 ≤ layerIndex ∧ layerIndex ≤ 5 then
    match s.focusedLayer with
    | some j =>
      if j = layerIndex then (s, [])
      else
        let (s1, e1) := handleLayerBlur j s
        let (s2, e2) := handleLayerFocus layerIndex s1
        (s2, e1 ++ e2)
    | none => handleLayerFocus layerIndex s
  else (s, [])

/-- The `this.focusedLayer || this.activeLayer || 3` idiom (src/unnamed
part_000 lines 249 and 259). -/
def currentLayerSel (s : LMState) : ℕ :=
  jsOr s.focusedLayer (jsOr s.activeLayer 3)

/-- `navigateLayer(direction)` (src/unnamed/part_000 lines 248-256): clamp
`current + direction` to `[1, 5]`; when that differs from the current
selection, activate and focus it; no wrap-around. -/
def navigateLayer (direction : ℤ) (s : LMState) : LMState × List LMEvent :=
  let currentLayer : ℤ := currentLayerSel s
  let newLayer : ℤ := max 1 (min 5 (currentLayer + direction))
  if newLayer ≠ currentLayer then
    let (s1, e1) := setActiveLayer newLayer.toNat s
    let (s2, e2) := focusOnLayer newLayer.toNat s1
    (s2, e1 ++ e2)
  else (s, [])

/-- `cycleLayers(direction)` (src/unnamed/part_000 lines 258-266): step the
current selection by `direction` and wrap past either end, then focus the
resulting layer. -/
def cycleLayers (direction : ℤ) (s : LMState) : LMState × List LMEvent :=
  let currentLayer : ℤ := currentLayerSel s
  let stepped : ℤ := currentLayer + direction
  let newLayer : ℤ := if stepped > 5 then 1 else if stepped < 1 then 5 else stepped
  focusOnLayer newLayer.toNat s

/-- `showLayerDetails(layerIndex)` (src/unnamed/part_000 lines 276-295):
ignored while the animation latch is held; ignored when the layer does not
exist; otherwise set the latch, create the single detail overlay (replacing
any existing one), bring the layer to the front, and dispatch
`layerDetailsShown`.  The latch is released by a 500 ms timer. -/
def showLayerDetails (layerIndex : ℕ) (s : LMState) : LMState × List LMEvent :=
  if s.isAnimating then (s, [])
  else if ¬(1 ≤ layerIndex ∧ layerIndex ≤ 5) then (s, [])
  else
    ({ s with isAnimating := true, overlayCount := 1, overlayFading := false,
              broughtFront := some layerIndex },
     [LMEvent.layerDetailsShown layerIndex])

/-- The 500 ms latch-release timer scheduled by `showLayerDetails`
(src/unnamed/part_000 lines 290-292). -/
def latchTimerFire (s : LMState) : LMState :=
  { s with isAnimating := false }

/-- `hideLayerDetails()` (src/unnamed/part_000 lines 297-310): NOT guarded
by the animation latch — if an overlay exists it starts fading (removal
scheduled after 300 ms), layer positions are always reset, and
`layerDetailsHidden` is always dispatched. -/
def hideLayerDetails (s : LMState) : LMState × List LMEvent :=
  let s1 := if s.overlayCount ≠ 0 then { s with overlayFading := true } else s
  ({ s1 with broughtFront := none }, [LMEvent.layerDetailsHidden])

/-- `updateActiveLayerFromRotation(rotateX, rotateY)` (src/unnamed/part_000
lines 449-469).  The `>` / `<` / `-` / `+` on `this.activeLayer` coerce
`null` to `0` (`jsNum`), while `!==` does not. -/
def updateActiveLayerFromRotation (rotateX : ℚ) (s : LMState) : LMState × List LMEvent :=
  let absRotateX := |rotateX|
  if absRotateX < 15 then
    if s.activeLayer ≠ some 3 then setActiveLayer 3 s else (s, [])
  else if rotateX > 30 then
    if 2 < jsNum s.activeLayer then
      setActiveLayer (max 1 (jsNum s.activeLayer - 1)) s
    else (s, [])
  else if rotateX < -30 then
    if jsNum s.activeLayer < 4 then
      setActiveLayer (min 5 (jsNum s.activeLayer + 1)) s
    else (s, [])
  else (s, [])

/-! ## Listener registry (for `destroy()`)

JS function-reference semantics: every evaluation of
`this.method.bind(this)` and every inline arrow allocates a fresh function
object, distinct from the prototype method `this.method`;
`removeEventListener` only detaches a listener whose (target, event,
function reference) triple matches exactly. -/

/-- A JS function reference as used in add/removeEventListener calls. -/
inductive JsFun
  | method (name : String)
  | boundCopy (name : String) (alloc : ℕ)
  | arrow (alloc : ℕ)
deriving Repr, DecidableEq

/-- One attached listener: target object, event name, handler reference. -/
structure Listener where
  target : String
  event : String
  fn : JsFun
deriving Repr, DecidableEq

/-- `removeEventListener(event, fn)` on `target`: detaches exactly the
registrations whose triple matches. -/
def removeEventListener (target event : String) (fn : JsFun) (ls : List Listener) :
    List Listener :=
  ls.filter (fun l => ¬(l.target = target ∧ l.event = event ∧ l.fn = fn))

/-- The listeners attached by `RotationController.initializeEventListeners`
(rotation-controller.js lines 70-95), in order.  Each `.bind(this)` and each
inline arrow allocates a fresh function object (`alloc` numbers them). -/
def rcInitListeners : List Listener :=
  [ ⟨"container", "mousedown", .boundCopy "handleMouseDown" 0⟩,
    ⟨"document", "mousemove", .boundCopy "handleMouseMove" 1⟩,
    ⟨"document", "mouseup", .boundCopy "handleMouseUp" 2⟩,
    ⟨"layersWrapper", "wheel", .boundCopy "handleWheel" 3⟩,
    ⟨"container", "touchstart", .boundCopy "handleTouchStart" 4⟩,
    ⟨"document", "touchmove", .boundCopy "handleTouchMove" 5⟩,
    ⟨"document", "touchend", .boundCopy "handleTouchEnd" 6⟩,
    ⟨"document", "keydown", .boundCopy "handleKeyDown" 7⟩,
    ⟨"container", "contextmenu", .arrow 8⟩,
    ⟨"window", "resize", .boundCopy "handleResize" 9⟩,
    ⟨"container", "dragstart", .arrow 10⟩ ]

/-- `RotationController.destroy()` (rotation-controller.js lines 432-448):
the eight `removeEventListener` calls it makes, each passing the UNbound
prototype method (`this.handleMouseDown` etc.), not the bound copy that was
registered. -/
def rcDestroyListeners (ls : List Listener) : List Listener :=
  removeEventListener "window" "resize" (.method "handleResize")
    (removeEventListener "document" "keydown" (.method "handleKeyDown")
      (removeEventListener "document" "touchend" (.method "handleTouchEnd")
        (removeEventListener "document" "touchmove" (.method "handleTouchMove")
          (removeEventListener "container" "touchstart" (.method "handleTouchStart")
            (removeEventListener "document" "mouseup" (.method "handleMouseUp")
              (removeEventListener "document" "mousemove" (.method "handleMouseMove")
                (removeEventListener "container" "mousedown" (.method "handleMouseDown")
                  ls)))))))

/-! ## Helper lemmas -/

lemma clampQ_mem (lo hi x : ℚ) (h : lo ≤ hi) :
    lo ≤ clampQ lo hi x ∧ clampQ lo hi x ≤ hi := by
  unfold clampQ
  exact ⟨le_max_left _ _, max_le h (min_le_left _ _)⟩

lemma easeOutCubic_mem (p : ℚ) (h0 : 0 ≤ p) (h1 : p ≤ 1) :
    0 ≤ easeOutCubic p ∧ easeOutCubic p ≤ 1 := by
  unfold easeOutCubic
  constructor
  · nlinarith [sq_nonneg (1 - p), sq_nonneg p]
  · nlinarith [sq_nonneg (1 - p)]

lemma interp_mem (lo hi a b e : ℚ) (ha1 : lo ≤ a) (ha2 : a ≤ hi)
    (hb1 : lo ≤ b) (hb2 : b ≤ hi) (he1 : 0 ≤ e) (he2 : e ≤ 1) :
    lo ≤ a + (b - a) * e ∧ a + (b - a) * e ≤ hi := by
  constructor <;> nlinarith

/-! ## Claims -/

/-- Claim C2 (code_bug): `setRotation(200, 0, true)` routes the unclamped
target 200 into `animateToRotation`; the frame at `elapsed = 300` (progress
capped at 1) stores `rotateX = 200`, outside the documented clamp
`[-MAX_ROTATION_X, MAX_ROTATION_X]`, whereas the `animate = false` branch of
the same method clamps. -/
theorem setRotation_animate_violates_clamp :
    (rotAnimFrame (setRotationAnimate 200 0 rcInit) 300 rcInit).rotateX = 200 ∧
    ¬ |(rotAnimFrame (setRotationAnimate 200 0 rcInit) 300 rcInit).rotateX| ≤ MAX_ROTATION_X ∧
    (setRotationImmediate 200 0 rcInit).rotateX = MAX_ROTATION_X := by
  refine ⟨?_, ?_, ?_⟩ <;>
    simp [rotAnimFrame, setRotationAnimate, animateToRotation, rcInit, easeOutCubic,
      TRANSITION_DURATION, setRotationImmediate, clampQ, MAX_ROTATION_X] <;> norm_num

/-- Claim C4 (code_bug): `RotationController.destroy()` removes nothing —
`initializeEventListeners` registered fresh `.bind(this)` copies (and two
inline arrows), while `destroy` passes the unbound prototype methods to
`removeEventListener`, which therefore matches no registration; all 11
listeners remain attached. -/
theorem rcDestroy_leaves_all_listeners :
    rcDestroyListeners rcInitListeners = rcInitListeners ∧
    rcInitListeners.length = 11 ∧
    rcInitListeners ≠ [] := by
  refine ⟨by decide, by decide, by decide⟩

/-- Claim C1 counterexample: with prior active layer 2 and `rotateX = 45`
(beyond +30), the claim prescribes a decrement toward the back with floor 1,
i.e. new active layer `max 1 (2 - 1) = 1`; the code's guard
`this.activeLayer > 2` fails at 2, so the active layer stays 2. -/
theorem updateActiveLayerFromRotation_stuck_at_two :
    (updateActiveLayerFromRotation 45 { lmInit with activeLayer := some 2 }).1.activeLayer
      = some 2 ∧
    some 2 ≠ some (max 1 (2 - 1) : ℕ) := by
  refine ⟨by decide, by decide⟩

/-- Claim C1 (amended): `updateActiveLayerFromRotation` forces layer 3 when
`|rotateX| < 15`; when `rotateX > 30` it decrements the active layer by one
only if the prior active layer (null coerced to 0) exceeds 2, so the
minimum index reachable by decrementing is 2; when `rotateX < -30` it
increments by one only if the prior active layer is below 4, so the maximum
index reachable by incrementing is 4; for `|rotateX|` within [15, 30] the
state is unchanged (dead zone). -/
theorem updateActiveLayerFromRotation_cases (rotateX : ℚ) (s : LMState) :
    (|rotateX| < 15 →
      (updateActiveLayerFromRotation rotateX s).1.activeLayer = some 3) ∧
    (rotateX > 30 →
      (updateActiveLayerFromRotation rotateX s).1.activeLayer =
        if 2 < jsNum s.activeLayer then some (jsNum s.activeLayer - 1)
        else s.activeLayer) ∧
    (rotateX < -30 →
      (updateActiveLayerFromRotation rotateX s).1.activeLayer =
        if jsNum s.activeLayer < 4 then some (jsNum s.activeLayer + 1)
        else s.activeLayer) ∧
    (15 ≤ |rotateX| → rotateX ≤ 30 → -30 ≤ rotateX →
      updateActiveLayerFromRotation rotateX s = (s, [])) := by
  refine ⟨?_, ?_, ?_, ?_⟩
  · intro h
    rw [updateActiveLayerFromRotation, if_pos h]
    by_cases h3 : s.activeLayer = some 3
    · simp [h3]
    · simp [h3, setActiveLayer]
  · intro h
    have habs : ¬ |rotateX| < 15 := by
      rw [abs_of_pos (by linarith)]; linarith
    rw [updateActiveLayerFromRotation, if_neg habs, if_pos h]
    by_cases h2 : 2 < jsNum s.activeLayer
    · have hmax : max 1 (jsNum s.activeLayer - 1) = jsNum s.activeLayer - 1 := by omega
      simp only [h2, if_pos, if_true, hmax, setActiveLayer]
      split
      · next heq => exact heq
      · rfl
    · simp [h2]
  · intro h
    have habs : ¬ |rotateX| < 15 := by
      rw [abs_of_neg (by linarith)]; linarith
    have hpos : ¬ rotateX > 30 := by linarith
    rw [updateActiveLayerFromRotation, if_neg habs, if_neg hpos, if_pos h]
    by_cases h4 : jsNum s.activeLayer < 4
    · have hmin : min 5 (jsNum s.activeLayer + 1) = jsNum s.activeLayer + 1 := by omega
      simp only [h4, if_pos, if_true, hmin, setActiveLayer]
      split
      · next heq => exact heq
      · rfl
    · simp [h4]
  · intro h1 h2 h3
    rw [updateActiveLayerFromRotation, if_neg (by linarith), if_neg (by linarith),
      if_neg (by linarith)]

/-- Instantiation of `updateActiveLayerFromRotation_cases` at the spec's own
worked examples. -/
theorem updateActiveLayerFromRotation_cases_witness :
    (updateActiveLayerFromRotation 0 lmInit).1.activeLayer = some 3 ∧
    (updateActiveLayerFromRotation 45 lmInit).1.activeLayer = some 2 ∧
    (updateActiveLayerFromRotation (-45) lmInit).1.activeLayer = some 4 ∧
    updateActiveLayerFromRotation 20 { lmInit with activeLayer := some 2 }
      = ({ lmInit with activeLayer := some 2 }, []) := by
  refine ⟨(updateActiveLayerFromRotation_cases 0 lmInit).1 (by norm_num), ?_, ?_, ?_⟩
  · have h := (updateActiveLayerFromRotation_cases 45 lmInit).2.1 (by norm_num)
    rw [h]; decide
  · have h := (updateActiveLayerFromRotation_cases (-45) lmInit).2.2.1 (by norm_num)
    rw [h]; decide
  · exact (updateActiveLayerFromRotation_cases 20 _).2.2.2 (by norm_num) (by norm_num)
      (by norm_num)

/-- Claim C3 counterexample: from the state reached by a successful
`showLayerDetails(3)` (latch held, `isAnimating = true`), a
`hideLayerDetails()` call is NOT ignored: it dispatches
`layerDetailsHidden` and changes the state (the overlay starts fading and
the layer transforms are reset). -/
theorem hideLayerDetails_not_ignored_while_animating :
    (showLayerDetails 3 lmInit).1.isAnimating = true ∧
    (hideLayerDetails (showLayerDetails 3 lmInit).1).2 = [LMEvent.layerDetailsHidden] ∧
    (hideLayerDetails (showLayerDetails 3 lmInit).1).1 ≠ (showLayerDetails 3 lmInit).1 := by
  refine ⟨by decide, by decide, by decide⟩

/-- Claim C3 (amended): while the animation latch is held, a second
`showLayerDetails` call has no effect at all (state unchanged, no events)
and exactly one overlay node exists; `hideLayerDetails` is not guarded by
the latch and proceeds normally. -/
theorem showLayerDetails_reentrant_show_ignored (s : LMState) (i j : ℕ)
    (h1 : 1 ≤ i) (h5 : i ≤ 5) (hfree : s.isAnimating = false) :
    (showLayerDetails i s).1.isAnimating = true ∧
    (showLayerDetails i s).1.overlayCount = 1 ∧
    showLayerDetails j (showLayerDetails i s).1 = ((showLayerDetails i s).1, []) ∧
    (hideLayerDetails (showLayerDetails i s).1).2 = [LMEvent.layerDetailsHidden] := by
  rw [showLayerDetails, if_neg (by rw [hfree]; exact Bool.false_ne_true),
    if_neg (not_not_intro ⟨h1, h5⟩)]
  refine ⟨rfl, rfl, ?_, rfl⟩
  rw [showLayerDetails, if_pos rfl]

/-- Instantiation of `showLayerDetails_reentrant_show_ignored` at layer 3
from the constructor state. -/
theorem showLayerDetails_reentrant_show_ignored_witness :
    (showLayerDetails 3 lmInit).1.overlayCount = 1 ∧
    showLayerDetails 2 (showLayerDetails 3 lmInit).1 = ((showLayerDetails 3 lmInit).1, []) :=
  ⟨(showLayerDetails_reentrant_show_ignored lmInit 3 2 (by decide) (by decide) rfl).2.1,
   (showLayerDetails_reentrant_show_ignored lmInit 3 2 (by decide) (by decide) rfl).2.2.1⟩

/-- Claim C6 (confirmed): when `i` is not already active, the first
`setActiveLayer(i)` changes the active layer and dispatches exactly one
`layerActivated`; the immediately repeated call is a strict no-op (same
state, no events), so the pair of calls yields exactly one active-state
change and one notification. -/
theorem setActiveLayer_idempotent (i : ℕ) (s : LMState) (h : s.activeLayer ≠ some i) :
    (setActiveLayer i s).2 = [LMEvent.layerActivated i] ∧
    (setActiveLayer i s).1.activeLayer = some i ∧
    setActiveLayer i (setActiveLayer i s).1 = ((setActiveLayer i s).1, []) := by
  rw [setActiveLayer, if_neg h]
  exact ⟨rfl, rfl, by rw [setActiveLayer, if_pos rfl]⟩

/-- Instantiation of `setActiveLayer_idempotent`: activating layer 4 from
the constructor state (active layer 3). -/
theorem setActiveLayer_idempotent_witness :
    (setActiveLayer 4 lmInit).2 = [LMEvent.layerActivated 4] ∧
    setActiveLayer 4 (setActiveLayer 4 lmInit).1 = ((setActiveLayer 4 lmInit).1, []) :=
  ⟨(setActiveLayer_idempotent 4 lmInit (by decide)).1,
   (setActiveLayer_idempotent 4 lmInit (by decide)).2.2⟩

/-- `focusOnLayer` on a valid index always leaves that layer focused. -/
lemma focusOnLayer_sets_focus (i : ℕ) (s : LMState) (h1 : 1 ≤ i) (h5 : i ≤ 5) :
    (focusOnLayer i s).1.focusedLayer = some i := by
  rw [focusOnLayer, if_pos ⟨h1, h5⟩]
  cases hf : s.focusedLayer with
  | none => rfl
  | some j =>
    by_cases hj : j = i
    · subst hj; simp [hf]
    · simp [hj, hf, handleLayerBlur, handleLayerFocus]

/-- `focusOnLayer` never touches the active layer. -/
lemma focusOnLayer_activeLayer (i : ℕ) (s : LMState) :
    (focusOnLayer i s).1.activeLayer = s.activeLayer := by
  rw [focusOnLayer]
  split
  · cases hf : s.focusedLayer with
    | none => rfl
    | some j =>
      by_cases hj : j = i
      · simp [hj]
      · simp [hj, hf, handleLayerBlur, handleLayerFocus]
  · rfl

/-- Claim C7 (confirmed): `cycleLayers` wraps circularly over 1..5 — step
`+1` from current selection 5 focuses layer 1, step `-1` from current
selection 1 focuses layer 5, and from any interior position a ±1 step
focuses the adjacent layer. -/
theorem cycleLayers_wraps (s : LMState) :
    (currentLayerSel s = 5 → (cycleLayers 1 s).1.focusedLayer = some 1) ∧
    (currentLayerSel s = 1 → (cycleLayers (-1) s).1.focusedLayer = some 5) ∧
    (∀ d : ℤ, (d = 1 ∨ d = -1) →
      1 ≤ (currentLayerSel s : ℤ) + d → (currentLayerSel s : ℤ) + d ≤ 5 →
      (cycleLayers d s).1.focusedLayer = some ((currentLayerSel s : ℤ) + d).toNat) := by
  refine ⟨?_, ?_, ?_⟩
  · intro h
    rw [cycleLayers]
    simp only [h]
    norm_num
    exact focusOnLayer_sets_focus 1 s (by norm_num) (by norm_num)
  · intro h
    rw [cycleLayers]
    simp only [h]
    norm_num
    exact focusOnLayer_sets_focus 5 s (by norm_num) (by norm_num)
  · intro d hd hlo hhi
    rw [cycleLayers]
    simp only [if_neg (by omega : ¬ (currentLayerSel s : ℤ) + d > 5),
      if_neg (by omega : ¬ (currentLayerSel s : ℤ) + d < 1)]
    exact focusOnLayer_sets_focus _ s (by omega) (by omega)

/-- Instantiation of `cycleLayers_wraps`: wrap from 5 to 1, wrap from 1 to
5, and an interior step from the constructor state (selection 3). -/
theorem cycleLayers_wraps_witness :
    (cycleLayers 1 { lmInit with activeLayer := some 5 }).1.focusedLayer = some 1 ∧
    (cycleLayers (-1) { lmInit with activeLayer := some 1 }).1.focusedLayer = some 5 ∧
    (cycleLayers 1 lmInit).1.focusedLayer = some 4 :=
  ⟨(cycleLayers_wraps { lmInit with activeLayer := some 5 }).1 (by decide),
   (cycleLayers_wraps { lmInit with activeLayer := some 1 }).2.1 (by decide),
   (cycleLayers_wraps lmInit).2.2 1 (Or.inl rfl) (by decide) (by decide)⟩

/-- Claim C10 (confirmed): when clamping `scale + delta` returns the current
scale, `updateZoom` leaves the whole state unchanged, applies no transform
and emits nothing; and the `zoomUpdate` event is emitted exactly when the
stored scale actually changes. -/
theorem updateZoom_noop_iff (delta : ℚ) (s : RCState) :
    (clampQ minScale maxScale (s.scale + delta) = s.scale →
      updateZoom delta s = (s, [])) ∧
    (RCEvent.zoomUpdate ∈ (updateZoom delta s).2 ↔ (updateZoom delta s).1.scale ≠ s.scale) := by
  constructor
  · intro h
    rw [updateZoom]
    simp [h]
  · by_cases h : clampQ minScale maxScale (s.scale + delta) = s.scale
    · rw [updateZoom]
      simp [h]
    · rw [updateZoom]
      simp [h]

/-- Instantiation of `updateZoom_noop_iff`: further zoom-in at the maximum
scale 2 changes nothing and emits nothing. -/
theorem updateZoom_noop_iff_witness :
    clampQ minScale maxScale ((2 : ℚ) + 1) = (2 : ℚ) ∧
    updateZoom 1 { rcInit with scale := 2 } = ({ rcInit with scale := 2 }, []) := by
  have hc : clampQ minScale maxScale ((2 : ℚ) + 1) = (2 : ℚ) := by
    norm_num [clampQ, minScale, maxScale]
  exact ⟨hc, (updateZoom_noop_iff 1 { rcInit with scale := 2 }).1 hc⟩

/-- A selection slot is unset or holds a layer index in 1..5 (the spec's
SelectionState invariant). -/
def selInRange : Option ℕ → Prop
  | none => True
  | some n => 1 ≤ n ∧ n ≤ 5

instance (o : Option ℕ) : Decidable (selInRange o) := by
  cases o <;> simp [selInRange] <;> infer_instance

/-- Both selection slots of a `LayerManager` state are in range or unset. -/
def lmSelInv (s : LMState) : Prop :=
  selInRange s.activeLayer ∧ selInRange s.focusedLayer

instance (s : LMState) : Decidable (lmSelInv s) := by
  unfold lmSelInv; infer_instance

/-- `setActiveLayer` always ends with the given index active and never
touches focus. -/
lemma setActiveLayer_fields (i : ℕ) (s : LMState) :
    (setActiveLayer i s).1.activeLayer = some i ∧
    (setActiveLayer i s).1.focusedLayer = s.focusedLayer := by
  rw [setActiveLayer]
  split
  · next h => exact ⟨h.symm ▸ rfl, rfl⟩
  · exact ⟨rfl, rfl⟩

/-- One `navigateLayer` call preserves the selection-range invariant. -/
lemma navigateLayer_preserves (d : ℤ) (s : LMState) (hs : lmSelInv s) :
    lmSelInv (navigateLayer d s).1 := by
  rw [navigateLayer]
  split
  · next hne =>
    set nl : ℤ := max 1 (min 5 ((currentLayerSel s : ℤ) + d)) with hnl
    have h1 : 1 ≤ nl.toNat := by omega
    have h5 : nl.toNat ≤ 5 := by omega
    simp only []
    constructor
    · rw [focusOnLayer_activeLayer, (setActiveLayer_fields nl.toNat s).1]
      exact ⟨h1, h5⟩
    · rw [focusOnLayer_sets_focus nl.toNat _ h1 h5]
      exact ⟨h1, h5⟩
  · exact hs

/-- Run a list of `navigateLayer` directions in order. -/
def navRun (dirs : List ℤ) (s : LMState) : LMState :=
  dirs.foldl (fun t d => (navigateLayer d t).1) s

lemma navRun_preserves (dirs : List ℤ) (s : LMState) (hs : lmSelInv s) :
    lmSelInv (navRun dirs s) := by
  induction dirs generalizing s with
  | nil => exact hs
  | cons d rest ih =>
    exact ih (navigateLayer d s).1 (navigateLayer_preserves d s hs)

/-- Claim C8 (confirmed): any sequence of `navigateLayer(±1)` calls from a
state whose selection slots are in 1..5 or unset keeps both slots in 1..5
or unset; at the two ends the call is a strict no-op (clamping, no wrap). -/
theorem navigateLayer_in_range (dirs : List ℤ) (s : LMState)
    (_hdirs : ∀ d ∈ dirs, d = 1 ∨ d = -1) (hs : lmSelInv s) :
    lmSelInv (navRun dirs s) ∧
    (currentLayerSel s = 5 → navigateLayer 1 s = (s, [])) ∧
    (currentLayerSel s = 1 → navigateLayer (-1) s = (s, [])) := by
  refine ⟨navRun_preserves dirs s hs, ?_, ?_⟩
  · intro h
    rw [navigateLayer]
    rw [if_neg]
    simp [h]
  · intro h
    rw [navigateLayer]
    rw [if_neg]
    simp [h]

/-- Instantiation of `navigateLayer_in_range`: seven consecutive `+1`
steps from the constructor state stay in range, and the no-wrap no-ops at
both ends. -/
theorem navigateLayer_in_range_witness :
    lmSelInv (navRun [1, 1, 1, 1, 1, 1, 1] lmInit) ∧
    navigateLayer 1 { lmInit with activeLayer := some 5 }
      = ({ lmInit with activeLayer := some 5 }, []) ∧
    navigateLayer (-1) { lmInit with activeLayer := some 1 }
      = ({ lmInit with activeLayer := some 1 }, []) :=
  ⟨(navigateLayer_in_range [1, 1, 1, 1, 1, 1, 1] lmInit (by decide) (by decide)).1,
   (navigateLayer_in_range [] { lmInit with activeLayer := some 5 }
      (by decide) (by decide)).2.1 (by decide),
   (navigateLayer_in_range [] { lmInit with activeLayer := some 1 }
      (by decide) (by decide)).2.2 (by decide)⟩

/-- Scale-subsystem invariant: the stored scale and the captured endpoints
of every outstanding scale animation lie within `[minScale, maxScale]`. -/
def scaleInv (z : ZoomSys) : Prop :=
  (minScale ≤ z.rc.scale ∧ z.rc.scale ≤ maxScale) ∧
  ∀ a ∈ z.anims, (minScale ≤ a.1 ∧ a.1 ≤ maxScale) ∧ (minScale ≤ a.2 ∧ a.2 ≤ maxScale)

instance (z : ZoomSys) : Decidable (scaleInv z) := by
  unfold scaleInv; infer_instance

lemma minScale_le_maxScale : minScale ≤ maxScale := by
  norm_num [minScale, maxScale]

/-- Each zoom operation preserves the scale invariant. -/
lemma zoomStep_preserves (z : ZoomSys) (op : ZoomOp) (hop : zoomOpValid op)
    (hz : scaleInv z) : scaleInv (zoomStep z op) := by
  obtain ⟨⟨hlo, hhi⟩, hanims⟩ := hz
  cases op with
  | zoomDelta d =>
    simp only [zoomStep, updateZoom]
    split
    · exact ⟨clampQ_mem minScale maxScale _ minScale_le_maxScale, hanims⟩
    · exact ⟨⟨hlo, hhi⟩, hanims⟩
  | setScaleOp x animate =>
    simp only [zoomStep, setScale]
    split
    · refine ⟨⟨hlo, hhi⟩, ?_⟩
      intro a ha
      rcases List.mem_cons.mp ha with h | h
      · rw [h]
        exact ⟨⟨hlo, hhi⟩, clampQ_mem minScale maxScale _ minScale_le_maxScale⟩
      · exact hanims a h
    · exact ⟨clampQ_mem minScale maxScale _ minScale_le_maxScale, hanims⟩
  | resetZoomOp =>
    simp only [zoomStep, resetZoom, animateToScale]
    refine ⟨⟨hlo, hhi⟩, ?_⟩
    intro a ha
    rcases List.mem_cons.mp ha with h | h
    · rw [h]
      exact ⟨⟨hlo, hhi⟩, by norm_num [minScale, maxScale]⟩
    · exact hanims a h
  | frame i elapsed =>
    simp only [zoomStep, scaleAnimFrame]
    cases hget : z.anims.get? i with
    | none => exact ⟨⟨hlo, hhi⟩, hanims⟩
    | some a =>
      obtain ⟨⟨hs1, hs2⟩, ht1, ht2⟩ := hanims a (List.get?_mem hget)
      have helapsed : (0:ℚ) ≤ elapsed := hop
      have hp0 : 0 ≤ min (elapsed / TRANSITION_DURATION) 1 :=
        le_min (div_nonneg helapsed (by norm_num [TRANSITION_DURATION])) (by norm_num)
      have hp1 : min (elapsed / TRANSITION_DURATION) 1 ≤ 1 := min_le_right _ _
      obtain ⟨he0, he1⟩ := easeOutCubic_mem _ hp0 hp1
      exact ⟨interp_mem minScale maxScale a.1 a.2 _ hs1 hs2 ht1 ht2 he0 he1, hanims⟩

lemma zoomRun_preserves (ops : List ZoomOp) (z : ZoomSys)
    (hops : ∀ op ∈ ops, zoomOpValid op) (hz : scaleInv z) :
    scaleInv (zoomRun ops z) := by
  induction ops generalizing z with
  | nil => exact hz
  | cons op rest ih =>
    exact ih (zoomStep z op)
      (fun o ho => hops o (List.mem_cons_of_mem _ ho))
      (zoomStep_preserves z op (hops op (List.mem_cons_self _ _)) hz)

/-- Claim C5 (confirmed): after any sequence of wheel/pinch zoom deltas,
`setScale` calls with arbitrary arguments, `resetZoom` calls and frames of
any outstanding scale animation (with nonnegative elapsed time), the stored
scale lies within `[minScale, maxScale]` = [0.2, 2]. -/
theorem scale_always_clamped (ops : List ZoomOp)
    (hops : ∀ op ∈ ops, zoomOpValid op) :
    minScale ≤ (zoomRun ops zoomInit).rc.scale ∧
    (zoomRun ops zoomInit).rc.scale ≤ maxScale := by
  have hinit : scaleInv zoomInit := by
    refine ⟨⟨?_, ?_⟩, by simp [zoomInit]⟩ <;> norm_num [zoomInit, rcInit, minScale, maxScale]
  exact (zoomRun_preserves ops zoomInit hops hinit).1

/-- Instantiation of `scale_always_clamped`: a large zoom-in delta, an
animated out-of-range `setScale`, a frame of that animation, and a zoom-out
past the floor all keep the scale within bounds. -/
theorem scale_always_clamped_witness :
    (∀ op ∈ ([ZoomOp.zoomDelta 7, ZoomOp.setScaleOp 9 true, ZoomOp.frame 0 150,
        ZoomOp.zoomDelta (-22)] : List ZoomOp), zoomOpValid op) ∧
    minScale ≤ (zoomRun [ZoomOp.zoomDelta 7, ZoomOp.setScaleOp 9 true, ZoomOp.frame 0 150,
        ZoomOp.zoomDelta (-22)] zoomInit).rc.scale ∧
    (zoomRun [ZoomOp.zoomDelta 7, ZoomOp.setScaleOp 9 true, ZoomOp.frame 0 150,
        ZoomOp.zoomDelta (-22)] zoomInit).rc.scale ≤ maxScale := by
  have hops : ∀ op ∈ ([ZoomOp.zoomDelta 7, ZoomOp.setScaleOp 9 true, ZoomOp.frame 0 150,
      ZoomOp.zoomDelta (-22)] : List ZoomOp), zoomOpValid op := by
    intro op hop
    fin_cases hop <;> norm_num [zoomOpValid]
  exact ⟨hops, scale_always_clamped _ hops⟩

/-- The momentum loop's rest condition: neither velocity component exceeds
the epsilon 0.1 in magnitude, so the guard at rotation-controller.js line
361 fails. -/
def momentumStopped (s : RCState) : Prop :=
  |s.velX| ≤ 1/10 ∧ |s.velY| ≤ 1/10

instance (s : RCState) : Decidable (momentumStopped s) := by
  unfold momentumStopped; infer_instance

lemma momentumFrame_of_stopped (s : RCState) (h : momentumStopped s) :
    momentumFrame s = s := by
  rw [momentumFrame, if_neg]
  rintro ⟨-, h2 | h2⟩
  · exact absurd h.1 (not_le.mpr h2)
  · exact absurd h.2 (not_le.mpr h2)

lemma momentumFrame_isDragging (s : RCState) :
    (momentumFrame s).isDragging = s.isDragging := by
  rw [momentumFrame]; split <;> rfl

lemma momentumFrame_iterate_isDragging (s : RCState) (n : ℕ) :
    (momentumFrame^[n] s).isDragging = s.isDragging := by
  induction n with
  | zero => rfl
  | succ n ih => rw [Function.iterate_succ_apply', momentumFrame_isDragging, ih]

/-- While the loop has not stopped, both velocity components have decayed
geometrically by the damping factor. -/
lemma momentumFrame_vel_bound (s : RCState) (hd : s.isDragging = false) (n : ℕ) :
    momentumStopped (momentumFrame^[n] s) ∨
      (|(momentumFrame^[n] s).velX| ≤ dampening ^ n * |s.velX| ∧
       |(momentumFrame^[n] s).velY| ≤ dampening ^ n * |s.velY|) := by
  induction n with
  | zero => right; simp
  | succ n ih =>
    rw [Function.iterate_succ_apply']
    by_cases hstop : momentumStopped (momentumFrame^[n] s)
    · left
      rw [momentumFrame_of_stopped _ hstop]
      exact hstop
    · rcases ih with h | ⟨hx, hy⟩
      · exact absurd h hstop
      · right
        have hdrag : (momentumFrame^[n] s).isDragging = false := by
          rw [momentumFrame_iterate_isDragging, hd]
        have hguard : 1/10 < |(momentumFrame^[n] s).velX| ∨
            1/10 < |(momentumFrame^[n] s).velY| := by
          by_contra hc
          push_neg at hc
          exact hstop ⟨hc.1, hc.2⟩
        rw [momentumFrame, if_pos ⟨hdrag, hguard⟩]
        have hdamp : (0:ℚ) ≤ dampening := by norm_num [dampening]
        constructor
        · calc |(momentumFrame^[n] s).velX * dampening|
              = |(momentumFrame^[n] s).velX| * dampening := by
                rw [abs_mul, abs_of_nonneg hdamp]
            _ ≤ dampening ^ n * |s.velX| * dampening :=
                mul_le_mul_of_nonneg_right hx hdamp
            _ = dampening ^ (n + 1) * |s.velX| := by ring
        · calc |(momentumFrame^[n] s).velY * dampening|
              = |(momentumFrame^[n] s).velY| * dampening := by
                rw [abs_mul, abs_of_nonneg hdamp]
            _ ≤ dampening ^ n * |s.velY| * dampening :=
                mul_le_mul_of_nonneg_right hy hdamp
            _ = dampening ^ (n + 1) * |s.velY| := by ring

/-- A stopped state is a fixpoint of every further frame. -/
lemma momentumFrame_iterate_of_stopped (t : RCState) (h : momentumStopped t) (k : ℕ) :
    momentumFrame^[k] t = t := by
  induction k with
  | zero => rfl
  | succ k ih => rw [Function.iterate_succ_apply', ih, momentumFrame_of_stopped t h]

/-- The momentum loop reaches its rest condition in finitely many frames. -/
lemma exists_momentum_stop (s : RCState) (hd : s.isDragging = false) :
    ∃ N, momentumStopped (momentumFrame^[N] s) := by
  by_cases h0 : momentumStopped s
  · exact ⟨0, h0⟩
  · set c : ℚ := max |s.velX| |s.velY| with hc
    have hcpos : 0 < c := by
      rw [momentumStopped, not_and_or] at h0
      rcases h0 with h | h
      · exact lt_of_lt_of_le (by norm_num) (le_trans (not_le.mp h).le (le_max_left _ _))
      · exact lt_of_lt_of_le (by norm_num) (le_trans (not_le.mp h).le (le_max_right _ _))
    obtain ⟨n, hn⟩ := exists_pow_lt_of_lt_one (x := 1 / (10 * c)) (y := dampening)
      (by positivity) (by norm_num [dampening])
    refine ⟨n, ?_⟩
    rcases momentumFrame_vel_bound s hd n with h | ⟨hx, hy⟩
    · exact h
    have hdn : (0:ℚ) ≤ dampening ^ n := pow_nonneg (by norm_num [dampening]) n
    have hkey : dampening ^ n * c < 1/10 := by
      have := mul_lt_mul_of_pos_right hn hcpos
      rw [div_mul_eq_mul_div, one_mul] at this
      calc dampening ^ n * c < c / (10 * c) := this
        _ = 1/10 := by field_simp; ring
    constructor
    · exact le_of_lt (lt_of_le_of_lt
        (le_trans hx (mul_le_mul_of_nonneg_left (le_max_left _ _) hdn)) hkey)
    · exact le_of_lt (lt_of_le_of_lt
        (le_trans hy (mul_le_mul_of_nonneg_left (le_max_right _ _) hdn)) hkey)

/-- Claim C9 (confirmed): when not dragging, an active momentum frame adds
the velocity to the angles (clamping `rotateX`) and damps both velocity
components by 0.95; and after finitely many frames both components are at
or below the epsilon 0.1, after which every further frame changes nothing
(in particular no further rotation change). -/
theorem momentum_damps_and_terminates (s : RCState) (hd : s.isDragging = false) :
    ((1/10 < |s.velX| ∨ 1/10 < |s.velY|) →
      momentumFrame s = { s with
        rotateX := clampQ (-MAX_ROTATION_X) MAX_ROTATION_X (s.rotateX + s.velX)
        rotateY := s.rotateY + s.velY
        velX := s.velX * dampening
        velY := s.velY * dampening }) ∧
    ∃ N, ∀ n, N ≤ n →
      |(momentumFrame^[n] s).velX| ≤ 1/10 ∧
      |(momentumFrame^[n] s).velY| ≤ 1/10 ∧
      momentumFrame (momentumFrame^[n] s) = momentumFrame^[n] s := by
  constructor
  · intro hguard
    rw [momentumFrame, if_pos ⟨hd, hguard⟩]
  · obtain ⟨N, hN⟩ := exists_momentum_stop s hd
    refine ⟨N, fun n hn => ?_⟩
    have hfix : momentumFrame^[n] s = momentumFrame^[N] s := by
      rw [← Nat.sub_add_cancel hn, Function.iterate_add_apply,
        momentumFrame_iterate_of_stopped _ hN]
    rw [hfix]
    exact ⟨hN.1, hN.2, momentumFrame_of_stopped _ hN⟩

/-- Instantiation of `momentum_damps_and_terminates` at velocity (5, -3):
the first frame applies the momentum formula, and the loop reaches rest. -/
theorem momentum_damps_and_terminates_witness :
    momentumFrame { rcInit with velX := 5, velY := -3 }
      = { rcInit with
          rotateX := clampQ (-MAX_ROTATION_X) MAX_ROTATION_X (0 + 5)
          rotateY := 0 + (-3)
          velX := 5 * dampening
          velY := -3 * dampening } ∧
    ∃ N, ∀ n, N ≤ n →
      |(momentumFrame^[n] { rcInit with velX := 5, velY := -3 }).velX| ≤ 1/10 ∧
      |(momentumFrame^[n] { rcInit with velX := 5, velY := -3 }).velY| ≤ 1/10 ∧
      momentumFrame (momentumFrame^[n] { rcInit with velX := 5, velY := -3 })
        = momentumFrame^[n] { rcInit with velX := 5, velY := -3 } := by
  have h := momentum_damps_and_terminates { rcInit with velX := 5, velY := -3 } rfl
  refine ⟨?_, h.2⟩
  have h1 := h.1 (by left; rw [show |((5:ℚ))| = 5 from abs_of_pos (by norm_num)]; norm_num)
  simpa [rcInit] using h1

end Portfolio

